import Mathlib

/-!
Shallow embedding of the session-establishment client in
`src/hooks/useAgentConnection.ts` (the `useAgentConnection` and
`useRealtimeGPT` hooks), for checking the natural-language specification
against the code.

Network effects are modelled by oracles: each HTTP attempt's outcome is an
element of `FetchOutcome` (a response with an `ok` flag, or a thrown network
error), and a run of `connect` is a trace of observable events (`Ev`)
determined by the outcomes the environment supplies for the sequential calls.
-/

/-- Outcome of one HTTP attempt: a response carrying its `res.ok` flag, or a
thrown network error (the `catch` branch of the source). -/
inductive FetchOutcome where
  | resp (ok : Bool)
  | err
  deriving DecidableEq

/-- What `fetchWithRetry` ultimately does: return a response (with its `ok`
flag) or re-raise the final network error. -/
inductive FetchResult where
  | ret (ok : Bool)
  | raise
  deriving DecidableEq

/-- An attempt is failing when it is a non-2xx response or a thrown error. -/
def isFailing : FetchOutcome → Bool
  | .resp ok => !ok
  | .err => true

/-- The result `fetchWithRetry` produces when an attempt is final. -/
def resultOf : FetchOutcome → FetchResult
  | .resp ok => .ret ok
  | .err => .raise

/-- Embedding of `fetchWithRetry` (src/hooks/useAgentConnection.ts lines
60-77). `oracle j` is the outcome of the j-th attempt against the endpoint;
`k` is the index of the current attempt. Returns the final result together
with the number of attempts performed. Source logic: a successful response is
returned at once; a non-ok response with `retries > 0` retries with
`retries - 1`; a non-ok response with `retries = 0` is returned as-is; a
thrown error with `retries > 0` retries, otherwise it is re-raised. -/
def fetchWithRetry (oracle : Nat → FetchOutcome) : Nat → Nat →
    FetchResult × Nat
  | 0, k =>
    match oracle k with
    | .resp ok => (.ret ok, 1)
    | .err => (.raise, 1)
  | r + 1, k =>
    match oracle k with
    | .resp ok =>
        if ok then (.ret true, 1)
        else
          let p := fetchWithRetry oracle r (k + 1)
          (p.1, p.2 + 1)
    | .err =>
        let p := fetchWithRetry oracle r (k + 1)
        (p.1, p.2 + 1)

/-- The HTTP endpoints the client talks to (relative to the configured base
URL, see the fetch call sites in `connect` and `speak`). -/
inductive Endpoint where
  | agentInfo      -- GET  /agents/\x7bagentId\x7d
  | createStream   -- POST /agents/\x7bagentId\x7d/streams
  | ice            -- POST /agents/\x7bagentId\x7d/streams/\x7bid\x7d/ice
  | sdpAnswer      -- POST /agents/\x7bagentId\x7d/streams/\x7bid\x7d/sdp
  | speakStream    -- POST /agents/\x7bagentId\x7d/streams/\x7bid\x7d
  deriving DecidableEq

/-- Observable events of a `connect` run: callback invocations, cleanup
actions, HTTP calls (tagged with whether they went through `fetchWithRetry`),
and creation of a new RTCPeerConnection. -/
inductive Ev where
  | status (s : String)        -- onConnectionStatusChange
  | connChange (b : Bool)      -- onConnectionChange
  | nameChange (s : String)    -- onAgentNameChange
  | stopStream                 -- stopStream()
  | closeConn                  -- closeConnection()
  | setIdleVisuals             -- thumbnail background + idle video source
  | newPeer                    -- new RTCPeerConnectionCtor(...)
  | http (e : Endpoint) (retried : Bool)
  deriving DecidableEq

/-- Outcome the environment supplies for one sequential HTTP step of
`connect`: a thrown error, or a response with its `ok` flag. For the
stream-creation step this is the final outcome of its `fetchWithRetry`. -/
inductive FetchRes where
  | thrown
  | resp (ok : Bool)
  deriving DecidableEq

/-- Environment of one `connect()` call: the pre-state the source reads and
the outcomes of its sequential network steps. -/
structure ConnectEnv where
  apiConfig : Bool        -- apiConfig loaded (non-null)
  connectedState : Bool   -- peerConnection?.connectionState === "connected"
  agentInfo : FetchRes    -- outcome of the plain agent-info fetch
  agentName : String      -- agentData.preview_name
  createStream : FetchRes -- final outcome of the stream-creation fetchWithRetry
  fluent : Bool           -- the fluent flag of the stream-creation response
  sdp : FetchRes          -- outcome of the plain SDP-answer fetch
  deriving DecidableEq

/-- Events of the `catch` branch of `connect` (lines 345-349). -/
def failTail : List Ev := [Ev.status "Connection failed", Ev.connChange false]

/-- The `try` block of `connect` (lines 147-344): agent-info fetch (plain,
not retried), stream creation (through `fetchWithRetry`), idle visuals for
non-fluent agents, peer-connection creation, and the SDP-answer POST (plain
`fetch`, not retried; its response's `ok` flag is never checked). Any thrown
error or checked non-ok response falls into `failTail`. -/
def connectTry (env : ConnectEnv) : List Ev :=
  Ev.http Endpoint.agentInfo false ::
  match env.agentInfo with
  | .thrown => failTail
  | .resp ok =>
    if !ok then failTail
    else
      Ev.nameChange env.agentName ::
      Ev.http Endpoint.createStream true ::
      match env.createStream with
      | .thrown => failTail
      | .resp ok2 =>
        if !ok2 then failTail
        else
          (if !env.fluent then [Ev.setIdleVisuals] else []) ++
          Ev.newPeer ::
          Ev.http Endpoint.sdpAnswer false ::
          match env.sdp with
          | .thrown => failTail
          | .resp _ => []

/-- Embedding of `connect` (lines 132-350): missing config returns silently;
the status callback fires, then the connected guard returns; otherwise
`stopStream()` and `closeConnection()` run before the `try` block. The
function is total: every error raised inside the `try` block is swallowed by
the `catch`, so `connect()` always resolves. -/
def connect (env : ConnectEnv) : List Ev :=
  if !env.apiConfig then []
  else
    Ev.status "Connecting…" ::
    (if env.connectedState then []
     else Ev.stopStream :: Ev.closeConn :: connectTry env)

/-- The icecandidate handler (lines 207-224) pushes each candidate with a
plain `fetch`: fire-and-forget, never through `fetchWithRetry`. -/
def onIceCandidate (_hasCandidate : Bool) : Ev :=
  Ev.http Endpoint.ice false

/-- A fully successful environment (all steps resolve ok). -/
def envOk : ConnectEnv :=
  { apiConfig := true, connectedState := false, agentInfo := .resp true
  , agentName := "Agent", createStream := .resp true, fluent := true
  , sdp := .resp true }

/-- An environment whose existing peer connection already reports
"connected". -/
def envConn : ConnectEnv :=
  { envOk with connectedState := true }

/-- An environment where the agent-info fetch returns a non-2xx response. -/
def env404 : ConnectEnv :=
  { envOk with agentInfo := .resp false }

/-- Effects of the remote-track handler (lines 248-306), as a record. The
handler receives the already-fixed `isFluentMode` of this connection attempt;
it never reads RTP statistics or byte counts (they are sampled later by the
interval it starts). `hasVideoTrack` and `hasStreamRef` model the early
return `if (!track || !streamVideoRef.current) return`; `hasIdleRef` models
the `idleVideoRef.current` null check on the idle-opacity write. -/
structure TrackEffects where
  srcObjectSet : Bool              -- streamVideoRef.current.srcObject = stream
  mutedSetFalse : Bool             -- streamVideoRef.current.muted = false
  streamOpacity : Option String    -- style.opacity write on the live surface
  idleOpacity : Option String      -- style.opacity write on the idle surface
  setStreamReady : Bool            -- setIsStreamReady(true) called
  setStreamPlaying : Option Bool   -- setIsStreamPlaying call (never made here)
  deferredPlayMs : Option Nat      -- setTimeout(play, 100) scheduled
  intervalStarted : Bool           -- the 1-second stats setInterval registered
  deriving DecidableEq

/-- Embedding of the remote-track handler body (lines 248-306). Note that
the stats interval is registered unconditionally at the end of the handler,
in fluent and non-fluent mode alike. -/
def trackHandler (isFluentMode hasVideoTrack hasStreamRef hasIdleRef : Bool) :
    TrackEffects :=
  if !hasVideoTrack || !hasStreamRef then
    { srcObjectSet := false, mutedSetFalse := false, streamOpacity := none
    , idleOpacity := none, setStreamReady := false, setStreamPlaying := none
    , deferredPlayMs := none, intervalStarted := false }
  else
    { srcObjectSet := true
    , mutedSetFalse := true
    , streamOpacity := if isFluentMode then some "1" else none
    , idleOpacity := if isFluentMode && hasIdleRef then some "0" else none
    , setStreamReady := isFluentMode
    , setStreamPlaying := none
    , deferredPlayMs := if isFluentMode then some 100 else none
    , intervalStarted := true }

/-- Mutable closure state of the stats interval: `lastBytes` starts at 0 and
`lastPlayingState` at false (lines 278-279). -/
structure MonitorState where
  lastBytes : Nat
  lastPlayingState : Bool
  deriving DecidableEq

/-- Observable effects of one stats sample. -/
inductive MonEv where
  | setPlaying (b : Bool)      -- setIsStreamPlaying(nowPlaying)
  | updateDisplay (b : Bool)   -- updateVideoDisplay(stream, nowPlaying)
  deriving DecidableEq

/-- One tick of the 1-second stats interval (lines 280-305), applied to the
inbound-rtp video report's cumulative `bytesReceived`. `nowPlaying` is
`bytesReceived > lastBytes`; on a flip, `setIsStreamPlaying` fires and — only
in non-fluent mode — `updateVideoDisplay` is called; `lastBytes` is updated
on every tick. -/
def statsTick (isFluentMode : Bool) (s : MonitorState) (bytesReceived : Nat) :
    MonitorState × List MonEv :=
  let nowPlaying : Bool := decide (s.lastBytes < bytesReceived)
  if nowPlaying != s.lastPlayingState then
    ({ lastBytes := bytesReceived, lastPlayingState := nowPlaying },
     MonEv.setPlaying nowPlaying ::
       (if !isFluentMode then [MonEv.updateDisplay nowPlaying] else []))
  else
    ({ lastBytes := bytesReceived, lastPlayingState := s.lastPlayingState }, [])

/-- Run of the stats interval over a list of successive byte-count samples. -/
def runMonitor (isFluentMode : Bool) (s : MonitorState) :
    List Nat → MonitorState × List MonEv
  | [] => (s, [])
  | b :: rest =>
    let p := statsTick isFluentMode s b
    let q := runMonitor isFluentMode p.1 rest
    (q.1, p.2 ++ q.2)

/-- Embedding of JavaScript `String.prototype.trim`: drop whitespace from
both ends of the string. -/
def trimString (s : String) : String :=
  ⟨((s.data.dropWhile Char.isWhitespace).reverse.dropWhile
      Char.isWhitespace).reverse⟩

/-- The state `speak` (lines 352-370) reads. -/
structure SpeakState where
  hasPeerConnection : Bool
  isStreamReady : Bool
  hasApiConfig : Bool
  streamId : Option String
  sessionId : Option String
  deriving DecidableEq

/-- The POST `speak` issues when it does not no-op. -/
structure SpeakRequest where
  retried : Bool            -- issued through fetchWithRetry
  scriptType : String       -- script.type
  scriptInput : String      -- script.input
  sessionIdSent : String    -- session_id field of the body
  streamIdUsed : String     -- path component of the endpoint
  deriving DecidableEq

/-- Embedding of `speak` (lines 352-370): returns the issued request, or
`none` when the guard
`!peerConnection || !isStreamReady || !apiConfig || !streamId || !sessionId`
fires or the trimmed message is empty. -/
def speak (st : SpeakState) (message : String) : Option SpeakRequest :=
  match st.streamId, st.sessionId with
  | some sid, some sess =>
    if !st.hasPeerConnection || !st.isStreamReady || !st.hasApiConfig then none
    else
      let val := trimString message
      if val = "" then none
      else
        some { retried := true, scriptType := "text", scriptInput := val
             , sessionIdSent := sess, streamIdUsed := sid }
  | _, _ => none

/-- Effects of the voice bridge's `ws.onclose` handler (lines 513-527). -/
structure CloseEffects where
  setConnectedFalse : Bool
  setListeningFalse : Bool
  connChangeFalse : Bool          -- onConnectionChange(false)
  reconnectDelayMs : Option Nat   -- setTimeout(reconnect, 3000) scheduled?
  deriving DecidableEq

/-- Embedding of `ws.onclose` (lines 513-527): state resets always happen; a
reconnect timer of 3000ms is scheduled exactly when the close code is not
the normal-closure code 1000. -/
def handleSocketClose (code : Nat) : CloseEffects :=
  { setConnectedFalse := true
  , setListeningFalse := true
  , connChangeFalse := true
  , reconnectDelayMs := if code != 1000 then some 3000 else none }

/-- The scheduled reconnect callback body (lines 521-525): `connect()` is
invoked exactly when `isConnected` is false at firing time. -/
def reconnectFires (isConnected : Bool) : Bool := !isConnected

/-- State of the realtime voice bridge that `handleRealtimeMessage`
(lines 542-592) touches: the delta accumulation buffer
(`currentResponseRef`), `lastResponse`, and the list of texts delivered via
`onTextReceived`. -/
structure BridgeState where
  currentResponse : String
  lastResponse : String
  delivered : List String
  deriving DecidableEq

/-- Incoming realtime messages, discriminated as in the source `switch`. A
`conversationItemCreated` carries the item's role and the `text` of its
first output-text content entry, when present. -/
inductive RtMessage where
  | textDelta (delta : String)
  | textDone
  | conversationItemCreated (role : String) (outputText : Option String)
  | other (t : String)
  deriving DecidableEq

/-- Embedding of `handleRealtimeMessage` (lines 542-592): deltas append to
the buffer; `response.text.done` delivers and clears the buffer only when it
is truthy after trimming (non-empty trimmed content), otherwise it leaves
the state untouched; a `conversation_item.created` with assistant role and a
truthy output text delivers that text directly; all other message kinds have
no caller-visible effect. -/
def handleRealtimeMessage (st : BridgeState) (m : RtMessage) : BridgeState :=
  match m with
  | .textDelta d => { st with currentResponse := st.currentResponse ++ d }
  | .textDone =>
      if trimString st.currentResponse ≠ "" then
        { currentResponse := ""
        , lastResponse := st.currentResponse
        , delivered := st.delivered ++ [st.currentResponse] }
      else st
  | .conversationItemCreated role outputText =>
      if role = "assistant" then
        match outputText with
        | some t =>
            if t ≠ "" then
              { st with lastResponse := t, delivered := st.delivered ++ [t] }
            else st
        | none => st
      else st
  | .other _ => st


/-- Helper for C1: against a permanently failing oracle, `fetchWithRetry`
with budget `retries` starting at attempt `k` performs `retries + 1`
attempts and finishes with the outcome of the last attempt. -/
theorem fetchWithRetry_fail_run (oracle : Nat → FetchOutcome)
    (hfail : ∀ j, isFailing (oracle j) = true) :
    ∀ retries k, fetchWithRetry oracle retries k =
      (resultOf (oracle (k + retries)), retries + 1) := by
  intro retries
  induction retries with
  | zero =>
      intro k
      have h := hfail k
      unfold fetchWithRetry
      cases ho : oracle k with
      | resp ok =>
          rw [ho] at h
          cases ok with
          | false => simp [resultOf, ho]
          | true => simp [isFailing] at h
      | err => simp [resultOf, ho]
  | succ r ih =>
      intro k
      have h := hfail k
      have hk : k + (r + 1) = (k + 1) + r := by omega
      unfold fetchWithRetry
      cases ho : oracle k with
      | resp ok =>
          rw [ho] at h
          cases ok with
          | false => simp [ih (k + 1), hk]
          | true => simp [isFailing] at h
      | err => simp [ih (k + 1), hk]

/-- Claim C1: for every retry budget N, `fetchWithRetry` with `retries = N`
against an endpoint whose every attempt fails performs exactly N + 1
attempts and then returns the last unsuccessful response when the final
attempt produced a response, or re-raises the final network error when the
final attempt threw. -/
theorem fetchWithRetry_budget (oracle : Nat → FetchOutcome)
    (hfail : ∀ j, isFailing (oracle j) = true) (N : Nat) :
    (fetchWithRetry oracle N 0).2 = N + 1 ∧
    (fetchWithRetry oracle N 0).1 = resultOf (oracle N) := by
  have h := fetchWithRetry_fail_run oracle hfail N 0
  rw [h]
  simp

/-- Witness for C1 at a concrete permanently failing oracle and N = 3. -/
theorem fetchWithRetry_budget_witness :
    (fetchWithRetry (fun _ => FetchOutcome.resp false) 3 0).2 = 3 + 1 ∧
    (fetchWithRetry (fun _ => FetchOutcome.resp false) 3 0).1 =
      resultOf ((fun _ => FetchOutcome.resp false) 3) :=
  fetchWithRetry_budget (fun _ => FetchOutcome.resp false) (fun _ => rfl) 3

/-- Counterexample for C3: in fluent mode the track handler still registers
the 1-second stats interval, and a sample with growing bytes still toggles
the playing flag (`setIsStreamPlaying` fires), contradicting the claim that
the sampling runs only when the fluent flag is false. -/
theorem stats_interval_in_fluent_cex :
    (trackHandler true true true true).intervalStarted = true ∧
    MonEv.setPlaying true ∈ (statsTick true ⟨0, false⟩ 5).2 := by decide

/-- Claim C3 (amended): the stats interval is registered whenever the track
handler gets past its early return, in fluent and non-fluent mode alike; in
fluent mode the sampling still toggles the playing flag, but it never drives
presentation — `updateVideoDisplay` is invoked by a sample only in
non-fluent mode. -/
theorem stats_interval_mode (f t r i : Bool) (s : MonitorState) (b : Nat) :
    (trackHandler f t r i).intervalStarted = (t && r) ∧
    (∀ p, MonEv.updateDisplay p ∈ (statsTick f s b).2 → f = false) := by
  constructor
  · cases t <;> cases r <;> simp [trackHandler]
  · intro p hp
    cases f with
    | false => rfl
    | true =>
        by_cases hflip : (decide (s.lastBytes < b) != s.lastPlayingState) = true
        · simp [statsTick, hflip] at hp
        · simp [statsTick, hflip] at hp

/-- Witness for C3 at concrete inputs: a non-fluent sample that does invoke
the presentation update. -/
theorem stats_interval_mode_witness :
    (trackHandler false true true true).intervalStarted = (true && true) ∧
    false = false :=
  ⟨(stats_interval_mode false true true true ⟨0, false⟩ 5).1,
   (stats_interval_mode false true true true ⟨0, false⟩ 5).2 true (by decide)⟩

/-- Claim C4: in fluent mode, upon arrival of the first remote video track,
the handler marks the stream ready, sets the live-surface opacity to 1 and
the idle-surface opacity to 0, and unmutes the live surface — the handler
reads no RTP byte counts or stats samples at all (its inputs are only the
mode and the availability of the track and the two surfaces). -/
theorem fluent_track_arrival :
    (trackHandler true true true true).setStreamReady = true ∧
    (trackHandler true true true true).streamOpacity = some "1" ∧
    (trackHandler true true true true).idleOpacity = some "0" ∧
    (trackHandler true true true true).mutedSetFalse = true := by decide

/-- Counterexample for C5: starting from the initial monitor state
(`lastBytes = 0`), a single 1-second sample with a positive byte count
already flips the playing flag to true — the claim's requirement of two
consecutive samples does not hold. -/
theorem single_sample_flips_playing_cex :
    (runMonitor false ⟨0, false⟩ [5]).2 =
      [MonEv.setPlaying true, MonEv.updateDisplay true] ∧
    List.length [5] = 1 := by decide

/-- Claim C5 (amended): the playing flag is set to true by a sample only
when that sample's cumulative byte count strictly exceeds the previously
recorded count (which starts at zero at track arrival); the track handler
itself never calls `setIsStreamPlaying` and, in non-fluent mode, never
declares the stream ready — so track arrival alone never sets
`isStreamPlaying` to true. -/
theorem nonfluent_playing_transitions (f : Bool) (s : MonitorState) (b : Nat)
    (t r i : Bool) :
    (MonEv.setPlaying true ∈ (statsTick f s b).2 → s.lastBytes < b) ∧
    (trackHandler f t r i).setStreamPlaying = none ∧
    (trackHandler false t r i).setStreamReady = false := by
  refine ⟨?_, ?_, ?_⟩
  · intro h
    by_cases hlt : s.lastBytes < b
    · exact hlt
    · exfalso
      have hdec : decide (s.lastBytes < b) = false := decide_eq_false hlt
      rcases hps : s.lastPlayingState with _ | _ <;>
        cases f <;>
          simp [statsTick, hdec, hps] at h
  · cases t <;> cases r <;> simp [trackHandler]
  · cases t <;> cases r <;> simp [trackHandler]

/-- Witness for C5 at concrete inputs. -/
theorem nonfluent_playing_transitions_witness :
    (MonitorState.mk 0 false).lastBytes < 5 ∧
    (trackHandler false true true true).setStreamReady = false :=
  ⟨(nonfluent_playing_transitions false ⟨0, false⟩ 5 true true true).1
     (by decide),
   (nonfluent_playing_transitions false ⟨0, false⟩ 5 true true true).2.2⟩

/-- Counterexample for C2: in a fully successful handshake, the POST of the
local SDP answer is issued with a plain single-attempt `fetch`
(`retried = false`), never through the bounded-retry helper. -/
theorem sdp_answer_not_retried_cex :
    Ev.http Endpoint.sdpAnswer false ∈ connect envOk ∧
    Ev.http Endpoint.sdpAnswer true ∉ connect envOk := by decide

/-- Claim C2 (amended): of the handshake's HTTP calls, exactly the
stream-creation POST goes through the bounded-retry helper; the agent-info
fetch, the SDP-answer POST, and the ICE-candidate push are all issued with
plain single-attempt `fetch`. -/
theorem handshake_retry_usage (env : ConnectEnv) (e : Endpoint) (r : Bool) :
    (Ev.http e r ∈ connect env → (r = true ↔ e = Endpoint.createStream)) ∧
    (∀ c, onIceCandidate c = Ev.http Endpoint.ice false) := by
  refine ⟨?_, fun c => rfl⟩
  intro h
  rcases env with ⟨ac, cs, ai, an, csr, fl, sdp⟩
  cases ac <;> cases cs <;>
    rcases ai with _ | (_ | _) <;>
    rcases csr with _ | (_ | _) <;>
    cases fl <;>
    rcases sdp with _ | (_ | _) <;>
    simp_all [connect, connectTry, failTail] <;>
    constructor <;>
    (intro hx; simp_all)

/-- Witness for C2 (amended) at the stream-creation call of a successful
run, and at a concrete ICE push. -/
theorem handshake_retry_usage_witness :
    (true = true ↔ Endpoint.createStream = Endpoint.createStream) ∧
    onIceCandidate true = Ev.http Endpoint.ice false :=
  ⟨(handshake_retry_usage envOk Endpoint.createStream true).1 (by decide),
   (handshake_retry_usage envOk Endpoint.createStream true).2 true⟩

/-- Claim C6: when the existing connection already reports connected, a
second `connect()` only fires the status callback and creates no new
transport; otherwise the trace starts with the status callback followed
immediately by `stopStream()` and `closeConnection()`, and every creation of
a new peer connection occurs strictly after both — so at most one live peer
connection exists afterwards. -/
theorem connect_single_transport (env : ConnectEnv)
    (hc : env.apiConfig = true) :
    (env.connectedState = true → connect env = [Ev.status "Connecting…"]) ∧
    (env.connectedState = false →
      connect env =
        Ev.status "Connecting…" :: Ev.stopStream :: Ev.closeConn ::
          connectTry env ∧
      ∀ i, (connect env)[i]? = some Ev.newPeer → 2 < i) := by
  constructor
  · intro h
    simp [connect, hc, h]
  · intro h
    have he : connect env =
        Ev.status "Connecting…" :: Ev.stopStream :: Ev.closeConn ::
          connectTry env := by
      simp [connect, hc, h]
    refine ⟨he, ?_⟩
    intro i hi
    rw [he] at hi
    rcases i with _ | (_ | (_ | i))
    · simp at hi
    · simp at hi
    · simp at hi
    · omega

/-- Witness for C6 at a connected environment (no-op) and at a fresh
successful environment (teardown precedes peer creation; the new peer
connection sits at index 6 of the trace). -/
theorem connect_single_transport_witness :
    connect envConn = [Ev.status "Connecting…"] ∧
    connect envOk =
      Ev.status "Connecting…" :: Ev.stopStream :: Ev.closeConn ::
        connectTry envOk ∧
    2 < 6 :=
  ⟨(connect_single_transport envConn rfl).1 rfl,
   ((connect_single_transport envOk rfl).2 rfl).1,
   ((connect_single_transport envOk rfl).2 rfl).2 6 (by decide)⟩

/-- Claim C7: when the agent-info fetch returns a non-2xx response,
`connect()` resolves with the exact trace below — the agent-info call is
made exactly once and never through the retry helper, no stream-creation
call is issued, the status callback reports a failed connection, and the
connection callback reports false. -/
theorem agent_info_failure (env : ConnectEnv) (h1 : env.apiConfig = true)
    (h2 : env.connectedState = false)
    (h3 : env.agentInfo = FetchRes.resp false) :
    connect env =
      [Ev.status "Connecting…", Ev.stopStream, Ev.closeConn,
       Ev.http Endpoint.agentInfo false, Ev.status "Connection failed",
       Ev.connChange false] ∧
    (connect env).count (Ev.http Endpoint.agentInfo false) = 1 ∧
    ∀ r, Ev.http Endpoint.createStream r ∉ connect env := by
  have he : connect env =
      [Ev.status "Connecting…", Ev.stopStream, Ev.closeConn,
       Ev.http Endpoint.agentInfo false, Ev.status "Connection failed",
       Ev.connChange false] := by
    simp [connect, connectTry, failTail, h1, h2, h3]
  refine ⟨he, ?_, ?_⟩
  · rw [he]
    decide
  · intro r
    rw [he]
    cases r <;> decide

/-- Witness for C7 at the concrete 404 environment. -/
theorem agent_info_failure_witness :
    connect env404 =
      [Ev.status "Connecting…", Ev.stopStream, Ev.closeConn,
       Ev.http Endpoint.agentInfo false, Ev.status "Connection failed",
       Ev.connChange false] ∧
    (connect env404).count (Ev.http Endpoint.agentInfo false) = 1 ∧
    ∀ r, Ev.http Endpoint.createStream r ∉ connect env404 :=
  agent_info_failure env404 rfl rfl rfl

/-- Claim C8: `speak` issues no request when the trimmed text is empty, when
there is no active peer connection, or when the stream is not ready; in an
established session (config loaded, stream and session identifiers present)
with a non-empty trimmed text it POSTs the script body with the session
identifier through the retrying fetch helper. -/
theorem speak_guard (st : SpeakState) (message : String) :
    ((trimString message = "" ∨ st.hasPeerConnection = false ∨
        st.isStreamReady = false) → speak st message = none) ∧
    (∀ sid sess, st.hasPeerConnection = true → st.isStreamReady = true →
      st.hasApiConfig = true → st.streamId = some sid →
      st.sessionId = some sess → trimString message ≠ "" →
      speak st message =
        some { retried := true, scriptType := "text"
             , scriptInput := trimString message
             , sessionIdSent := sess, streamIdUsed := sid }) := by
  constructor
  · intro h
    rcases hs1 : st.streamId with _ | sid <;>
      rcases hs2 : st.sessionId with _ | sess <;>
        simp [speak, hs1, hs2]
    rcases h with h | h | h
    · intro _
      simp [h]
    · simp [h]
    · simp [h]
  · intro sid sess h1 h2 h3 h4 h5 h6
    simp [speak, h4, h5, h1, h2, h3, h6]

/-- Witness for C8: a whitespace-only message is a no-op, and a padded
message in an established session issues the trimmed POST. -/
theorem speak_guard_witness :
    speak { hasPeerConnection := true, isStreamReady := true
          , hasApiConfig := true, streamId := some "s1"
          , sessionId := some "sess1" } "  " = none ∧
    speak { hasPeerConnection := true, isStreamReady := true
          , hasApiConfig := true, streamId := some "s1"
          , sessionId := some "sess1" } " hi " =
      some { retried := true, scriptType := "text"
           , scriptInput := trimString " hi "
           , sessionIdSent := "sess1", streamIdUsed := "s1" } :=
  ⟨(speak_guard _ "  ").1 (Or.inl (by decide)),
   (speak_guard _ " hi ").2 "s1" "sess1" rfl rfl rfl rfl rfl (by decide)⟩

/-- Claim C9: a socket closure with a non-normal close code schedules a
reconnect after 3000ms, and the scheduled callback attempts `connect()` only
when the bridge is not already connected; a closure with the normal code
1000 schedules no reconnect. -/
theorem voice_bridge_reconnect (code : Nat) :
    (code ≠ 1000 → (handleSocketClose code).reconnectDelayMs = some 3000) ∧
    (code = 1000 → (handleSocketClose code).reconnectDelayMs = none) ∧
    (∀ b, reconnectFires b = !b) := by
  refine ⟨?_, ?_, fun b => rfl⟩
  · intro h
    simp [handleSocketClose, h]
  · intro h
    subst h
    simp [handleSocketClose]

/-- Witness for C9 at the abnormal code 1006 and the normal code 1000. -/
theorem voice_bridge_reconnect_witness :
    (handleSocketClose 1006).reconnectDelayMs = some 3000 ∧
    (handleSocketClose 1000).reconnectDelayMs = none :=
  ⟨(voice_bridge_reconnect 1006).1 (by decide),
   (voice_bridge_reconnect 1000).2.1 rfl⟩

/-- Claim C10: on a text-done message, the delta buffer is delivered and
cleared exactly when it is non-empty after trimming; a whitespace-only
buffer is left untouched (neither delivered nor cleared), so a subsequent
delta appends to the surviving contents. -/
theorem text_done_buffer (st : BridgeState) (d : String) :
    (trimString st.currentResponse ≠ "" →
      handleRealtimeMessage st .textDone =
        { currentResponse := "", lastResponse := st.currentResponse
        , delivered := st.delivered ++ [st.currentResponse] }) ∧
    (trimString st.currentResponse = "" →
      handleRealtimeMessage st .textDone = st ∧
      (handleRealtimeMessage (handleRealtimeMessage st .textDone)
          (.textDelta d)).currentResponse = st.currentResponse ++ d) := by
  constructor
  · intro h
    simp [handleRealtimeMessage, h]
  · intro h
    have hst : handleRealtimeMessage st .textDone = st := by
      simp [handleRealtimeMessage, h]
    exact ⟨hst, by rw [hst]; simp [handleRealtimeMessage]⟩

/-- Witness for C10: a whitespace-only buffer survives the done message and
is prepended to the next delta; a non-blank buffer is delivered and
cleared. -/
theorem text_done_buffer_witness :
    handleRealtimeMessage ⟨"  ", "x", []⟩ .textDone =
      (⟨"  ", "x", []⟩ : BridgeState) ∧
    (handleRealtimeMessage (handleRealtimeMessage ⟨"  ", "x", []⟩ .textDone)
        (.textDelta "ok")).currentResponse = "  " ++ "ok" ∧
    handleRealtimeMessage ⟨" a ", "x", []⟩ .textDone =
      { currentResponse := "", lastResponse := " a "
      , delivered := [] ++ [" a "] } :=
  ⟨((text_done_buffer ⟨"  ", "x", []⟩ "ok").2 (by decide)).1,
   ((text_done_buffer ⟨"  ", "x", []⟩ "ok").2 (by decide)).2,
   (text_done_buffer ⟨" a ", "x", []⟩ "ok").1 (by decide)⟩
